import Mathlib

/-!
A shallow embedding of the text-editor core of the `tte` repository
(`src/editor.rs`), together with theorems checking the specification's
claims against it.

Conventions of the embedding:
* `usize`/`u8`/`u16` are idealized as `Nat`.  Rust's `saturating_sub` is
  Nat truncated subtraction (exact); `saturating_add` is plain addition
  (exact below `2^64`, the only range the program can inhabit).
* The repository's `document.rs` / `row.rs` are not present under `src/`
  (only their callers in `editor.rs` are), so `Row` and `Document` and their
  operations are modelled from the spec, as marked on each definition.
* I/O is made explicit: key reads become a list of pending `KeyEvent`s
  (a loop that would block forever on more input returns `none`), and the
  outcome of the file-write in `Document::save` becomes a boolean parameter.
* Strings being built up character by character (the prompt buffer) are
  `List Char`; status messages are `String`.
-/

namespace TTE

/-- `SearchDirection` from `editor.rs`. -/
inductive SearchDirection where
  | Forward
  | Backward
deriving DecidableEq, Repr

/-- `Position` from `editor.rs`: `x` is the column, `y` the row index. -/
structure Position where
  x : Nat
  y : Nat
deriving DecidableEq, Repr

/-- Modelled from the spec: a `Row` owns one line's raw content, an ordered
sequence of Unicode scalar values (`row.rs` is not part of the sources). -/
structure Row where
  raw : List Char
deriving DecidableEq, Repr

/-- Modelled from the spec: `Row::len`, the number of characters of the row. -/
def Row.len (r : Row) : Nat := r.raw.length

/-- Modelled from the spec: `Row::insert` splits raw content at the index
(clamped to `[0, len]`) and inserts the character there. -/
def Row.insert (r : Row) (at_ : Nat) (c : Char) : Row :=
  ⟨r.raw.take at_ ++ [c] ++ r.raw.drop at_⟩

/-- Modelled from the spec: `Row::delete` removes the character at the index
if in bounds; no-op (not an error) otherwise. -/
def Row.delete (r : Row) (at_ : Nat) : Row :=
  if at_ < r.raw.length then ⟨r.raw.eraseIdx at_⟩ else r

/-- Modelled from the spec: `Row::split` at an index: the left row keeps
`[0, at)`, the right row becomes `[at, len)`. -/
def Row.split (r : Row) (at_ : Nat) : Row × Row :=
  (⟨r.raw.take at_⟩, ⟨r.raw.drop at_⟩)

/-- Modelled from the spec: `Row::append` concatenates raw content. -/
def Row.append (r other : Row) : Row :=
  ⟨r.raw ++ other.raw⟩

/-- Modelled from the spec: forward in-row find: the first start index at or
after `fromX` where the query occurs in the row. -/
def Row.findFwd (r : Row) (q : List Char) (fromX : Nat) : Option Nat :=
  (List.range (r.raw.length + 1)).find?
    (fun i => decide (fromX ≤ i) && q.isPrefixOf (r.raw.drop i))

/-- Modelled from the spec: backward in-row find: the last start index whose
occurrence ends at or before `uptoX`. -/
def Row.findBwd (r : Row) (q : List Char) (uptoX : Nat) : Option Nat :=
  ((List.range (uptoX + 1)).reverse).find?
    (fun i => decide (i + q.length ≤ uptoX) && q.isPrefixOf (r.raw.drop i))

/-- Modelled from the spec: a `Document` owns an ordered sequence of Rows plus
dirty/file-identity state (`document.rs` is not part of the sources). -/
structure Document where
  rows : List Row
  file_name : Option String
  dirty : Bool
deriving DecidableEq, Repr

/-- Modelled from the spec: a `Document` is created empty: no rows, no file
name, not dirty. -/
def Document.default : Document :=
  ⟨[], none, false⟩

/-- `Document::len`: the number of rows. -/
def Document.len (d : Document) : Nat := d.rows.length

/-- `Document::row`: the row at an index, if any. -/
def Document.row (d : Document) (y : Nat) : Option Row := d.rows[y]?

/-- `Document::is_dirty`. -/
def Document.is_dirty (d : Document) : Bool := d.dirty

/-- `Document::is_empty`. -/
def Document.is_empty (d : Document) : Bool := d.rows.isEmpty

/-- Modelled from the spec: `Document::insert`.  A newline splits the row at
the position into two rows inserted in sequence (appending a fresh empty row
when the position is past the last row); any other character clamps the row
index to the last row and delegates to that Row's insert.  Sets `dirty`. -/
def Document.insert (d : Document) (pos : Position) (c : Char) : Document :=
  if c = '\n' then
    if h : pos.y < d.rows.length then
      let r := d.rows.get ⟨pos.y, h⟩
      let lr := r.split pos.x
      { d with rows := d.rows.take pos.y ++ [lr.1, lr.2] ++ d.rows.drop (pos.y + 1),
               dirty := true }
    else
      { d with rows := d.rows ++ [⟨[]⟩], dirty := true }
  else
    match d.rows with
    | [] => { d with rows := [⟨[c]⟩], dirty := true }
    | _ :: _ =>
      let y := min pos.y (d.rows.length - 1)
      match d.rows[y]? with
      | some r => { d with rows := d.rows.set y (r.insert pos.x c), dirty := true }
      | none => d

/-- Modelled from the spec: `Document::delete`.  No-op past the last row; at
end-of-row it merges the row with the following one (when there is one);
otherwise it delegates to the Row's delete.  Sets `dirty` when a mutation
occurs. -/
def Document.delete (d : Document) (pos : Position) : Document :=
  match d.rows[pos.y]? with
  | none => d
  | some r =>
    if pos.x = r.len then
      match d.rows[pos.y + 1]? with
      | some nxt =>
        { d with rows := d.rows.take pos.y ++ [r.append nxt] ++ d.rows.drop (pos.y + 2),
                 dirty := true }
      | none => d
    else if pos.x < r.len then
      { d with rows := d.rows.set pos.y (r.delete pos.x), dirty := true }
    else d

/-- Modelled from the spec: `Document::find`.  An empty query always returns
`none`.  Rows are searched starting at the given position, advancing one row
at a time in the given direction without wrapping, and the first matching
substring's start position is returned. -/
def Document.find (d : Document) (q : List Char) (pos : Position)
    (dir : SearchDirection) : Option Position :=
  if q = [] then none
  else
    match dir with
    | .Forward =>
      (List.range' pos.y (d.len - pos.y)).findSome? (fun y =>
        match d.row y with
        | none => none
        | some r =>
          (r.findFwd q (if y = pos.y then pos.x else 0)).map (fun x => ⟨x, y⟩))
    | .Backward =>
      ((List.range (pos.y + 1)).reverse).findSome? (fun y =>
        match d.row y with
        | none => none
        | some r =>
          (r.findBwd q (if y = pos.y then pos.x else r.len)).map (fun x => ⟨x, y⟩))

/-- `Size` from `terminal.rs` (the viewport dimensions). -/
structure Size where
  width : Nat
  height : Nat
deriving DecidableEq, Repr

/-- `KeyCode`: the key codes `editor.rs` distinguishes (crossterm's others
collapse to `Other`). -/
inductive KeyCode where
  | Char : Char → KeyCode
  | Enter
  | Esc
  | Backspace
  | Delete
  | Up
  | Down
  | Left
  | Right
  | PageUp
  | PageDown
  | Home
  | End
  | Other
deriving DecidableEq, Repr

/-- `KeyEvent`: `control` models `modifiers == KeyModifiers::CONTROL`. -/
structure KeyEvent where
  control : Bool
  code : KeyCode
deriving DecidableEq, Repr

/-- `QUIT_TIMES` from `editor.rs`. -/
def QUIT_TIMES : Nat := 3

/-- The `Editor` state from `editor.rs`.  The terminal is reduced to its
`size`; `StatusMessage` to its text (its timestamp is wall-clock display
state only). -/
structure Editor where
  should_quit : Bool
  size : Size
  cursor_position : Position
  offset : Position
  document : Document
  status_message : String
  quit_times : Nat
deriving DecidableEq, Repr

/-- The length of the document row at `y`, or 0 when there is no such row
(the `if let Some(row) ... row.len() else 0` idiom of `editor.rs`). -/
def rowLen (d : Document) (y : Nat) : Nat :=
  match d.row y with
  | some r => r.len
  | none => 0

/-- The pure content of `Editor::scroll`: the new offset for a given viewport
size, cursor and old offset (per axis: unchanged when the cursor is inside
`[offset, offset + size)`, else pulled to the cursor or to
`cursor - size + 1`). -/
def scrollOffset (sz : Size) (cur off : Position) : Position :=
  let oy :=
    if cur.y < off.y then cur.y
    else if off.y + sz.height ≤ cur.y then cur.y - sz.height + 1
    else off.y
  let ox :=
    if cur.x < off.x then cur.x
    else if off.x + sz.width ≤ cur.x then cur.x - sz.width + 1
    else off.x
  ⟨ox, oy⟩

/-- `Editor::scroll`. -/
def Editor.scroll (e : Editor) : Editor :=
  { e with offset := scrollOffset e.size e.cursor_position e.offset }

/-- The new (x, y) computed by the `match key_code` of `Editor::move_cursor`,
before the final end-of-line clamp. -/
def moveXY (e : Editor) (k : KeyCode) : Nat × Nat :=
  let terminalHeight := e.size.height
  let x := e.cursor_position.x
  let y := e.cursor_position.y
  let height := e.document.len
  let width := rowLen e.document y
  match k with
  | .Up => (x, y - 1)
  | .Down => if y + 1 < height then (x, y + 1) else (x, y)
  | .Left =>
    if 0 < x then (x - 1, y)
    else if 0 < y then (rowLen e.document (y - 1), y - 1)
    else (x, y)
  | .Right =>
    if x < width then (x + 1, y)
    else if y + 1 < height then (0, y + 1)
    else (x, y)
  | .PageUp => (x, if terminalHeight < y then y - terminalHeight else 0)
  | .PageDown =>
    (x, if y + terminalHeight < height then y + terminalHeight else height - 1)
  | .Home => (0, y)
  | .End => (width, y)
  | _ => (x, y)

/-- `Editor::move_cursor`: apply the per-key motion, then clamp `x` to the
length of the row at the new `y`. -/
def Editor.move_cursor (e : Editor) (k : KeyCode) : Editor :=
  let p := moveXY e k
  let width := rowLen e.document p.2
  { e with cursor_position := ⟨if width < p.1 then width else p.1, p.2⟩ }

/-- The loop of `Editor::prompt`, fed by the pending key list.  Returns the
editor, the callback's captured state, the final buffer, and whether the loop
was ended by Escape; `none` when the key list runs out (the real loop would
block on `read_key`). -/
def promptLoop {σ : Type} (cb : Editor → σ → KeyEvent → List Char → Editor × σ)
    (ps : String) :
    Editor → σ → List Char → List KeyEvent → Option (Editor × σ × List Char × Bool)
  | _, _, _, [] => none
  | e, s, result, k :: ks =>
    let e := { e with status_message := ps ++ String.mk result }
    if k.control then promptLoop cb ps e s result ks
    else
      match k.code with
      | .Enter => some (e, s, result, false)
      | .Esc => some (e, s, [], true)
      | code =>
        let result :=
          match code with
          | .Backspace => result.dropLast
          | .Char c => result ++ [c]
          | _ => result
        let es := cb e s k result
        promptLoop cb ps es.1 es.2 result ks

/-- `Editor::prompt`: run the loop from an empty buffer, clear the status
message, and return `none` for an empty final buffer. -/
def Editor.prompt {σ : Type} (cb : Editor → σ → KeyEvent → List Char → Editor × σ)
    (ps : String) (e : Editor) (s : σ) (ks : List KeyEvent) :
    Option (Editor × σ × Option (List Char)) :=
  match promptLoop cb ps e s [] ks with
  | none => none
  | some (e, s, result, _) =>
    some ({ e with status_message := "" }, s,
          if result = [] then none else some result)

/-- The closure passed to `prompt` by `Editor::search` (its captured mutable
`direction` is the `σ` state; `oldPos` is the captured `old_position`). -/
def searchCallback (oldPos : Position) (e : Editor) (_dir : SearchDirection)
    (k : KeyEvent) (query : List Char) : Editor × SearchDirection :=
  let dem : SearchDirection × Editor × Bool :=
    match k.code with
    | .Right | .Down => (.Forward, e.move_cursor .Right, true)
    | .Left | .Up => (.Backward, e, false)
    | _ => (.Forward, e, false)
  let dir := dem.1
  let e := dem.2.1
  let moved := dem.2.2
  match e.document.find query e.cursor_position dir with
  | some position => (({ e with cursor_position := position }).scroll, dir)
  | none =>
    if moved then (e.move_cursor .Left, dir)
    else (({ e with cursor_position := oldPos }).scroll, dir)

/-- The prompt string of `Editor::search` (typo as in the source). -/
def searchPromptStr : String := "Search (ESC to canel, Arrows to navigate): "

/-- `Editor::search`: save the position, run the prompt with the search
callback, and restore the saved position (re-scrolling) when the prompt
yields no query. -/
def Editor.search (e : Editor) (ks : List KeyEvent) : Option Editor :=
  let oldPos := e.cursor_position
  match Editor.prompt (searchCallback oldPos) searchPromptStr e .Forward ks with
  | none => none
  | some (e', _, query) =>
    match query with
    | none => some (({ e' with cursor_position := oldPos }).scroll)
    | some _ => some e'

/-- The trivial callback `|_, _, _| {}` that `Editor::save` passes to
`prompt`. -/
def saveCallback (e : Editor) (s : Unit) (_ : KeyEvent) (_ : List Char) :
    Editor × Unit := (e, s)

/-- The `document.save()` call at the end of `Editor::save`: `writeOk` is the
outcome of the file write (clears `dirty` on success, per the spec's
`Document::save`); the boolean in the result records that a write was
attempted. -/
def doWrite (e : Editor) (writeOk : Bool) : Editor × Bool :=
  if writeOk then
    ({ e with document := { e.document with dirty := false },
              status_message := "File saved successfully." }, true)
  else ({ e with status_message := "Error writing file!" }, true)

/-- `Editor::save`: prompt for a name when there is none; an aborted or empty
response sets the "Save aborted." status and returns without writing. -/
def Editor.save (e : Editor) (ks : List KeyEvent) (writeOk : Bool) :
    Option (Editor × Bool) :=
  match e.document.file_name with
  | some _ => some (doWrite e writeOk)
  | none =>
    match Editor.prompt saveCallback "Save as: " e () ks with
    | none => none
    | some (e', _, none) =>
      some ({ e' with status_message := "Save aborted." }, false)
    | some (e', _, some nm) =>
      doWrite { e' with document := { e'.document with file_name := some (String.mk nm) } }
        writeOk

/-- The warning status `process_keypress` formats on a refused quit. -/
def quitWarning (n : Nat) : String :=
  "WARNING! File has unsaved changes. Press Ctrl-Q " ++ toString n
    ++ " more times to quit."

/-- The tail of `Editor::process_keypress`: `self.scroll()` followed by the
quit-counter reset. -/
def finishKeypress (e : Editor) : Editor :=
  let e := e.scroll
  if e.quit_times < QUIT_TIMES then
    { e with quit_times := QUIT_TIMES, status_message := "" }
  else e

/-- The editing match arms of `Editor::process_keypress` (everything except
the three Ctrl-chord commands): Enter, character insertion, Delete,
Backspace, the eight move keys, and the ignoring default. -/
def editArm (e : Editor) (code : KeyCode) : Editor :=
  match code with
  | .Enter =>
    { e with document := e.document.insert e.cursor_position '\n',
             cursor_position := ⟨0, e.cursor_position.y + 1⟩ }
  | .Char c =>
    ({ e with document := e.document.insert e.cursor_position c }).move_cursor .Right
  | .Delete => { e with document := e.document.delete e.cursor_position }
  | .Backspace =>
    if 0 < e.cursor_position.x ∨ 0 < e.cursor_position.y then
      let e1 := e.move_cursor .Left
      { e1 with document := e1.document.delete e1.cursor_position }
    else e
  | .Up | .Down | .Left | .Right | .PageUp | .PageDown | .Home | .End =>
    e.move_cursor code
  | _ => e

/-- `Editor::process_keypress` on one key.  `ks` feeds any prompt the command
opens, `writeOk` is the outcome of a file write; `none` means the command
blocked forever inside a prompt. -/
def Editor.process_keypress (e : Editor) (k : KeyEvent) (ks : List KeyEvent)
    (writeOk : Bool) : Option Editor :=
  if k.control = true ∧ k.code = KeyCode.Char 'q' then
    if 0 < e.quit_times ∧ e.document.is_dirty then
      some { e with status_message := quitWarning e.quit_times,
                    quit_times := e.quit_times - 1 }
    else some (finishKeypress { e with should_quit := true })
  else if k.control = true ∧ k.code = KeyCode.Char 's' then
    (Editor.save e ks writeOk).map (fun p => finishKeypress p.1)
  else if k.control = true ∧ k.code = KeyCode.Char 'f' then
    (Editor.search e ks).map finishKeypress
  else some (finishKeypress (editArm e k.code))

/-- The initial help status of `Editor::default`. -/
def helpStatus : String := "HELP: Ctrl-F = find | Ctrl-S = save | Ctrl-Q = quit"

/-- `Editor::default`: `arg` is `args.get(1)`, `openRes` the outcome of
`Document::open` on a name, `sz` the terminal size. -/
def Editor.default (arg : Option String) (openRes : String → Option Document)
    (sz : Size) : Editor :=
  let ds : Document × String :=
    match arg with
    | some fname =>
      match openRes fname with
      | some d => (d, helpStatus)
      | none => (Document.default, "ERR: Could not open file: " ++ fname)
    | none => (Document.default, helpStatus)
  { should_quit := false
    size := sz
    cursor_position := ⟨0, 0⟩
    offset := ⟨0, 0⟩
    document := ds.1
    status_message := ds.2
    quit_times := QUIT_TIMES }

/-- The eight move commands of the claim about cursor motion. -/
def moveKeys : List KeyCode :=
  [.Up, .Down, .Left, .Right, .PageUp, .PageDown, .Home, .End]

/-- The cursor-in-bounds predicate of the claim about cursor motion: `y` in
`[0, len-1]` (`y = 0` for an empty document) and `x` at most the length of
the row at `y` (0 when there is no such row). -/
def cursorOk (d : Document) (p : Position) : Prop :=
  (p.y < d.len ∨ (d.len = 0 ∧ p.y = 0)) ∧ p.x ≤ rowLen d p.y

instance (d : Document) (p : Position) : Decidable (cursorOk d p) := by
  unfold cursorOk; infer_instance

/-- Ctrl-Q, the Quit command. -/
def ctrlQ : KeyEvent := ⟨true, KeyCode.Char 'q'⟩

/-- One Quit press (the pending-key list and write outcome are unused on the
quit path). -/
def pressCtrlQ (e : Editor) : Option Editor := e.process_keypress ctrlQ [] true

/-- A sample two-row document with unsaved changes, for concrete runs. -/
def sampleDoc : Document :=
  { rows := [⟨['a', 'b']⟩, ⟨['c']⟩], file_name := none, dirty := true }

/-- A sample editor over `sampleDoc`, for concrete runs. -/
def sampleEditor : Editor :=
  { should_quit := false
    size := ⟨80, 24⟩
    cursor_position := ⟨0, 0⟩
    offset := ⟨0, 0⟩
    document := sampleDoc
    status_message := ""
    quit_times := 3 }

/-- A `Document::open` outcome that always fails. -/
def alwaysFailOpen : String → Option Document := fun _ => none

/-! ### Helper lemmas -/

theorem scroll_cursor (e : Editor) : e.scroll.cursor_position = e.cursor_position := rfl

theorem scroll_document (e : Editor) : e.scroll.document = e.document := rfl

theorem scroll_quit_times (e : Editor) : e.scroll.quit_times = e.quit_times := rfl

theorem scroll_should_quit (e : Editor) : e.scroll.should_quit = e.should_quit := rfl

theorem scroll_status (e : Editor) : e.scroll.status_message = e.status_message := rfl

theorem scroll_offset_eq (e : Editor) :
    e.scroll.offset = scrollOffset e.size e.cursor_position e.offset := rfl

theorem move_cursor_document (e : Editor) (k : KeyCode) :
    (e.move_cursor k).document = e.document := rfl

theorem move_cursor_quit_times (e : Editor) (k : KeyCode) :
    (e.move_cursor k).quit_times = e.quit_times := rfl

theorem move_cursor_should_quit (e : Editor) (k : KeyCode) :
    (e.move_cursor k).should_quit = e.should_quit := rfl

theorem move_cursor_status (e : Editor) (k : KeyCode) :
    (e.move_cursor k).status_message = e.status_message := rfl

theorem finishKeypress_document (e : Editor) :
    (finishKeypress e).document = e.document := by
  unfold finishKeypress; dsimp only; split <;> rfl

theorem finishKeypress_cursor (e : Editor) :
    (finishKeypress e).cursor_position = e.cursor_position := by
  unfold finishKeypress; dsimp only; split <;> rfl

theorem finishKeypress_should_quit (e : Editor) :
    (finishKeypress e).should_quit = e.should_quit := by
  unfold finishKeypress; dsimp only; split <;> rfl

theorem finishKeypress_quit_times (e : Editor) (h : e.quit_times ≤ QUIT_TIMES) :
    (finishKeypress e).quit_times = QUIT_TIMES := by
  unfold finishKeypress
  dsimp only
  split
  · rfl
  · next h2 =>
    have : e.scroll.quit_times = e.quit_times := rfl
    rw [this]
    rw [this] at h2
    omega

theorem finishKeypress_status (e : Editor) (h : e.quit_times < QUIT_TIMES) :
    (finishKeypress e).status_message = "" := by
  unfold finishKeypress
  dsimp only
  split
  · rfl
  · next h2 =>
    have : e.scroll.quit_times = e.quit_times := rfl
    rw [this] at h2
    omega

/-! ### Claim theorems -/

/-- C3: the scroll operation leaves each offset axis unchanged when the
cursor coordinate on that axis lies in `[offset, offset + viewport_size)`,
and otherwise moves that axis by the minimal amount bringing the cursor back
into the half-open window: to the cursor when the cursor is before the
window, to `cursor - size + 1` when it is at or past the window end. -/
theorem scroll_minimal_adjustment (sz : Size) (cur off : Position) :
    ((off.y ≤ cur.y → cur.y < off.y + sz.height →
        (scrollOffset sz cur off).y = off.y) ∧
     (cur.y < off.y → (scrollOffset sz cur off).y = cur.y) ∧
     (off.y + sz.height ≤ cur.y →
        (scrollOffset sz cur off).y = cur.y - sz.height + 1)) ∧
    ((off.x ≤ cur.x → cur.x < off.x + sz.width →
        (scrollOffset sz cur off).x = off.x) ∧
     (cur.x < off.x → (scrollOffset sz cur off).x = cur.x) ∧
     (off.x + sz.width ≤ cur.x →
        (scrollOffset sz cur off).x = cur.x - sz.width + 1)) := by
  simp only [scrollOffset]
  refine ⟨⟨?_, ?_, ?_⟩, ⟨?_, ?_, ?_⟩⟩ <;> intros <;> split_ifs <;> omega

/-- Witness for C3: the three cases of each axis at concrete inputs
(in-window, before-window, past-window-end). -/
theorem scroll_minimal_adjustment_witness :
    (scrollOffset ⟨10, 5⟩ ⟨3, 4⟩ ⟨1, 2⟩).y = 2 ∧
    (scrollOffset ⟨10, 5⟩ ⟨3, 4⟩ ⟨1, 2⟩).x = 1 ∧
    (scrollOffset ⟨10, 5⟩ ⟨0, 0⟩ ⟨3, 4⟩).y = 0 ∧
    (scrollOffset ⟨10, 5⟩ ⟨0, 0⟩ ⟨3, 4⟩).x = 0 ∧
    (scrollOffset ⟨2, 2⟩ ⟨7, 9⟩ ⟨1, 1⟩).y = 8 ∧
    (scrollOffset ⟨2, 2⟩ ⟨7, 9⟩ ⟨1, 1⟩).x = 6 :=
  ⟨(scroll_minimal_adjustment ⟨10, 5⟩ ⟨3, 4⟩ ⟨1, 2⟩).1.1 (by decide) (by decide),
   (scroll_minimal_adjustment ⟨10, 5⟩ ⟨3, 4⟩ ⟨1, 2⟩).2.1 (by decide) (by decide),
   (scroll_minimal_adjustment ⟨10, 5⟩ ⟨0, 0⟩ ⟨3, 4⟩).1.2.1 (by decide),
   (scroll_minimal_adjustment ⟨10, 5⟩ ⟨0, 0⟩ ⟨3, 4⟩).2.2.1 (by decide),
   (scroll_minimal_adjustment ⟨2, 2⟩ ⟨7, 9⟩ ⟨1, 1⟩).1.2.2 (by decide),
   (scroll_minimal_adjustment ⟨2, 2⟩ ⟨7, 9⟩ ⟨1, 1⟩).2.2.2 (by decide)⟩

/-- C4: Left at column 0 of a non-first row moves the cursor to the end
(length) of the previous row, and Right at end-of-row on a non-last row
moves the cursor to column 0 of the next row. -/
theorem move_cursor_line_wrap :
    (∀ e : Editor, 0 < e.cursor_position.y →
      e.cursor_position.y < e.document.len → e.cursor_position.x = 0 →
      (e.move_cursor .Left).cursor_position =
        ⟨rowLen e.document (e.cursor_position.y - 1), e.cursor_position.y - 1⟩) ∧
    (∀ e : Editor, e.cursor_position.y < e.document.len →
      e.cursor_position.x = rowLen e.document e.cursor_position.y →
      e.cursor_position.y + 1 < e.document.len →
      (e.move_cursor .Right).cursor_position = ⟨0, e.cursor_position.y + 1⟩) := by
  constructor
  · intro e hy _ hx
    simp only [Editor.move_cursor, moveXY, hx]
    simp [hy, Nat.not_lt_zero]
  · intro e _ hx hy1
    simp only [Editor.move_cursor, moveXY, hx]
    simp [hy1]

/-- Witness for C4: both wrap directions on the concrete document
`["ab", "c"]`. -/
theorem move_cursor_line_wrap_witness :
    (({ sampleEditor with cursor_position := ⟨0, 1⟩ } : Editor).move_cursor
        .Left).cursor_position = ⟨2, 0⟩ ∧
    (({ sampleEditor with cursor_position := ⟨2, 0⟩ } : Editor).move_cursor
        .Right).cursor_position = ⟨0, 1⟩ := by
  constructor
  · have h := move_cursor_line_wrap.1 { sampleEditor with cursor_position := ⟨0, 1⟩ }
      (by decide) (by decide) (by decide)
    simpa using h
  · have h := move_cursor_line_wrap.2 { sampleEditor with cursor_position := ⟨2, 0⟩ }
      (by decide) (by decide) (by decide)
    simpa using h

theorem moveXY_y_bounds (e : Editor) (k : KeyCode)
    (hy : e.cursor_position.y < e.document.len ∨
          (e.document.len = 0 ∧ e.cursor_position.y = 0)) :
    (moveXY e k).2 < e.document.len ∨
      (e.document.len = 0 ∧ (moveXY e k).2 = 0) := by
  cases k <;> simp only [moveXY] <;> (try split_ifs) <;> (try dsimp only) <;> omega

/-- Counterexample to C2 as stated: in the one-row document `["ab", "c"]`
with the (out-of-range) cursor position `(0, 5)`, the Up command leaves the
cursor at `y = 4`, which is not in `[0, document.len()-1]`. -/
theorem move_cursor_in_bounds_cex :
    KeyCode.Up ∈ moveKeys ∧
    ¬ cursorOk sampleEditor.document
        (({ sampleEditor with cursor_position := ⟨0, 5⟩ } : Editor).move_cursor
          .Up).cursor_position := by decide

/-- C2 (amended: the starting `y` must itself be in bounds — `y <
document.len()`, or `y = 0` for an empty document; from an out-of-range
start the cursor can stay out of range, see the counterexample): after
`move_cursor` with any of the eight move commands, the cursor's `y` lies in
`[0, document.len()-1]` (`y = 0` for an empty document) and its `x` is at
most the length of the row at the new `y` (0 if there is no such row). -/
theorem move_cursor_in_bounds (e : Editor) (k : KeyCode) (_hk : k ∈ moveKeys)
    (hy : e.cursor_position.y < e.document.len ∨
          (e.document.len = 0 ∧ e.cursor_position.y = 0)) :
    cursorOk e.document (e.move_cursor k).cursor_position := by
  have hb := moveXY_y_bounds e k hy
  unfold cursorOk Editor.move_cursor
  constructor
  · exact hb
  · dsimp only
    split_ifs with h
    · exact le_refl _
    · omega

/-- Witness for C2: the Down command from `(0, 0)` in `["ab", "c"]`. -/
theorem move_cursor_in_bounds_witness :
    cursorOk sampleEditor.document
      (sampleEditor.move_cursor .Down).cursor_position :=
  move_cursor_in_bounds sampleEditor .Down (by decide) (by decide)

theorem editArm_quit_times (e : Editor) (c : KeyCode) :
    (editArm e c).quit_times = e.quit_times := by
  cases c <;> simp only [editArm] <;> (try split) <;> rfl

theorem editArm_should_quit (e : Editor) (c : KeyCode) :
    (editArm e c).should_quit = e.should_quit := by
  cases c <;> simp only [editArm] <;> (try split) <;> rfl

/-- C10: a Backspace command with the cursor at `(0, 0)` is a no-op on the
document and the cursor position, for every document (with or without the
Control modifier, which the Backspace match arm ignores). -/
theorem backspace_at_origin_noop (e : Editor) (ctrl : Bool)
    (ks : List KeyEvent) (ok : Bool) (h : e.cursor_position = ⟨0, 0⟩) :
    Option.map Editor.document (e.process_keypress ⟨ctrl, .Backspace⟩ ks ok)
      = some e.document ∧
    Option.map Editor.cursor_position
        (e.process_keypress ⟨ctrl, .Backspace⟩ ks ok)
      = some e.cursor_position := by
  have harm : editArm e KeyCode.Backspace = e := by
    simp [editArm, h]
  simp [Editor.process_keypress, harm, finishKeypress_document,
    finishKeypress_cursor]

/-- Counterexample to C1 as stated: on the dirty editor over `["ab", "c"]`
with a full quit counter, the third consecutive Ctrl-Q press still leaves
`should_quit = false` (the warning branch runs while `quit_times > 0`, i.e.
on the first three presses; only the fourth press quits). -/
theorem quit_three_presses_cex :
    Option.map Editor.should_quit
        (((pressCtrlQ sampleEditor).bind pressCtrlQ).bind pressCtrlQ)
      = some false := by decide

/-- C1 (amended: quitting a dirty editor takes exactly `QUIT_TIMES + 1 = 4`
consecutive Ctrl-Q presses, not 3 — see the counterexample): the first three
presses leave `should_quit = false`, show the warning with the visible
counter values 3, 2, 1, and decrement the counter; the fourth press sets
`should_quit = true`. -/
theorem quit_requires_four_presses (e : Editor) (ks : List KeyEvent)
    (ok : Bool) (hsq : e.should_quit = false)
    (hd : e.document.dirty = true) (hq : e.quit_times = QUIT_TIMES) :
    ∃ e1 e2 e3 e4 : Editor,
      e.process_keypress ctrlQ ks ok = some e1 ∧
      e1.should_quit = false ∧ e1.quit_times = 2 ∧
      e1.status_message = quitWarning 3 ∧
      e1.process_keypress ctrlQ ks ok = some e2 ∧
      e2.should_quit = false ∧ e2.quit_times = 1 ∧
      e2.status_message = quitWarning 2 ∧
      e2.process_keypress ctrlQ ks ok = some e3 ∧
      e3.should_quit = false ∧ e3.quit_times = 0 ∧
      e3.status_message = quitWarning 1 ∧
      e3.process_keypress ctrlQ ks ok = some e4 ∧
      e4.should_quit = true := by
  refine ⟨{ e with status_message := quitWarning 3, quit_times := 2 },
          { e with status_message := quitWarning 2, quit_times := 1 },
          { e with status_message := quitWarning 1, quit_times := 0 },
          finishKeypress { e with status_message := quitWarning 1, quit_times := 0,
                                  should_quit := true },
          ?_, hsq, rfl, rfl, ?_, hsq, rfl, rfl, ?_, hsq, rfl, rfl, ?_, ?_⟩
  · simp [Editor.process_keypress, ctrlQ, Document.is_dirty, hd, hq, QUIT_TIMES]
  · simp [Editor.process_keypress, ctrlQ, Document.is_dirty, hd]
  · simp [Editor.process_keypress, ctrlQ, Document.is_dirty, hd]
  · simp [Editor.process_keypress, ctrlQ, Document.is_dirty, hd]
  · rw [finishKeypress_should_quit]

/-- Witness for C1: the four presses on the concrete dirty editor. -/
theorem quit_requires_four_presses_witness :
    Option.map Editor.should_quit
        ((((pressCtrlQ sampleEditor).bind pressCtrlQ).bind pressCtrlQ).bind
          pressCtrlQ)
      = some true := by
  obtain ⟨e1, e2, e3, e4, h1, _, _, _, h2, _, _, _, h3, _, _, _, h4, hsq⟩ :=
    quit_requires_four_presses sampleEditor [] true rfl rfl rfl
  simp [pressCtrlQ, h1, h2, h3, h4, hsq]

/-- Witness for C10: the concrete editor over `["ab", "c"]` at `(0, 0)`. -/
theorem backspace_at_origin_noop_witness :
    Option.map Editor.document
        (sampleEditor.process_keypress ⟨false, .Backspace⟩ [] true)
      = some sampleEditor.document ∧
    Option.map Editor.cursor_position
        (sampleEditor.process_keypress ⟨false, .Backspace⟩ [] true)
      = some sampleEditor.cursor_position :=
  backspace_at_origin_noop sampleEditor false [] true rfl

theorem promptLoop_pres {σ α : Type} (f : Editor → α)
    (cb : Editor → σ → KeyEvent → List Char → Editor × σ) (ps : String)
    (hcb : ∀ e s k r, f (cb e s k r).1 = f e)
    (hst : ∀ (e : Editor) (m : String), f { e with status_message := m } = f e) :
    ∀ (ks : List KeyEvent) (e : Editor) (s : σ) (acc : List Char)
      (out : Editor × σ × List Char × Bool),
      promptLoop cb ps e s acc ks = some out → f out.1 = f e := by
  intro ks
  induction ks with
  | nil => intro e s acc out h; simp [promptLoop] at h
  | cons k ks ih =>
    intro e s acc out h
    rw [promptLoop] at h
    by_cases hc : k.control = true
    · rw [if_pos hc] at h
      rw [ih _ _ _ _ h]
      exact hst e _
    · rw [if_neg hc] at h
      rcases hk : k.code with c | _ | _ | _ | _ | _ | _ | _ | _ | _ | _ | _ | _ | _ <;>
        rw [hk] at h <;>
        first
          | (injection h with h; rw [← h]; exact hst e _)
          | (rw [ih _ _ _ _ h, hcb]; exact hst e _)

theorem promptLoop_esc_empty {σ : Type}
    (cb : Editor → σ → KeyEvent → List Char → Editor × σ) (ps : String) :
    ∀ (ks : List KeyEvent) (e : Editor) (s : σ) (acc : List Char)
      (e2 : Editor) (s2 : σ) (r : List Char),
      promptLoop cb ps e s acc ks = some (e2, s2, r, true) → r = [] := by
  intro ks
  induction ks with
  | nil => intro e s acc e2 s2 r h; simp [promptLoop] at h
  | cons k ks ih =>
    intro e s acc e2 s2 r h
    rw [promptLoop] at h
    by_cases hc : k.control = true
    · rw [if_pos hc] at h
      exact ih _ _ _ _ _ _ h
    · rw [if_neg hc] at h
      rcases hk : k.code with c | _ | _ | _ | _ | _ | _ | _ | _ | _ | _ | _ | _ | _ <;>
        rw [hk] at h <;> dsimp only at h <;>
        first
          | exact ih _ _ _ _ _ _ h
          | (simp at h; exact h.2.2)
          | simp at h

/-- C9: `prompt` returns `None` exactly when the accumulated input is empty
when the loop ends: Escape truncates the buffer to empty (so an
Escape-terminated run always yields `None`), Enter on a non-empty buffer
yields `Some` of that buffer, and Enter on an empty buffer yields `None`. -/
theorem prompt_none_iff_empty {σ : Type}
    (cb : Editor → σ → KeyEvent → List Char → Editor × σ) (ps : String)
    (e : Editor) (s : σ) (ks : List KeyEvent) (e2 : Editor) (s2 : σ)
    (r : List Char) (esc : Bool)
    (h : promptLoop cb ps e s [] ks = some (e2, s2, r, esc)) :
    Editor.prompt cb ps e s ks
      = some ({ e2 with status_message := "" }, s2,
              if r = [] then none else some r) ∧
    (esc = true → r = []) := by
  constructor
  · unfold Editor.prompt
    rw [h]
  · intro he
    exact promptLoop_esc_empty cb ps ks e s [] e2 s2 r (he ▸ h)

theorem prompt_pres {σ α : Type} (f : Editor → α)
    (cb : Editor → σ → KeyEvent → List Char → Editor × σ) (ps : String)
    (hcb : ∀ e s k r, f (cb e s k r).1 = f e)
    (hst : ∀ (e : Editor) (m : String), f { e with status_message := m } = f e)
    (e : Editor) (s : σ) (ks : List KeyEvent)
    (out : Editor × σ × Option (List Char))
    (h : Editor.prompt cb ps e s ks = some out) : f out.1 = f e := by
  unfold Editor.prompt at h
  rcases hl : promptLoop cb ps e s [] ks with _ | ⟨e2, s2, r, esc⟩
  · rw [hl] at h; exact absurd h (by simp)
  · rw [hl] at h
    simp only [Option.some.injEq] at h
    rw [← h]
    have := promptLoop_pres f cb ps hcb hst ks e s [] (e2, s2, r, esc) hl
    rw [← this]
    exact hst e2 ""

/-- Witness for C9: typing `a` then Enter yields `Some ['a']`; the run was
not Escape-terminated. -/
theorem prompt_none_iff_empty_witness :
    Editor.prompt saveCallback "P: " sampleEditor ()
        [⟨false, .Char 'a'⟩, ⟨false, .Enter⟩]
      = some ({ sampleEditor with status_message := "" }, (),
              if (['a'] : List Char) = [] then none else some ['a']) ∧
    (false = true → (['a'] : List Char) = []) := by
  have h := prompt_none_iff_empty saveCallback "P: " sampleEditor ()
    [⟨false, .Char 'a'⟩, ⟨false, .Enter⟩]
    { sampleEditor with status_message := "P: a" } () ['a'] false (by decide)
  simpa using h

/-- C8: when `save` is invoked with no file name and the prompt run yields no
name (aborted by Escape, or Enter on an empty response), the save sets the
"Save aborted." status and returns without attempting a write (`false` flag)
and without touching the document — in particular no file name is set. -/
theorem save_prompt_aborted (e : Editor) (ks : List KeyEvent) (ok : Bool)
    (e2 : Editor) (hn : e.document.file_name = none)
    (hp : Editor.prompt saveCallback "Save as: " e () ks = some (e2, (), none)) :
    Editor.save e ks ok
      = some ({ e2 with status_message := "Save aborted." }, false) ∧
    e2.document = e.document ∧ e2.document.file_name = none := by
  have hdoc : e2.document = e.document :=
    prompt_pres Editor.document saveCallback "Save as: "
      (fun _ _ _ _ => rfl) (fun _ _ => rfl) e () ks (e2, (), none) hp
  refine ⟨?_, hdoc, by rw [hdoc]; exact hn⟩
  unfold Editor.save
  rw [hn]
  dsimp only
  rw [hp]

/-- Witness for C8: Escape at the "Save as: " prompt of the unnamed
`sampleEditor`. -/
theorem save_prompt_aborted_witness :
    Editor.save sampleEditor [⟨false, .Esc⟩] true
      = some ({ sampleEditor with status_message := "Save aborted." }, false) ∧
    sampleEditor.document = sampleEditor.document ∧
    sampleEditor.document.file_name = none :=
  save_prompt_aborted sampleEditor [⟨false, .Esc⟩] true sampleEditor
    (by decide) (by decide)

theorem searchCallback_quit_times (old : Position) (e : Editor)
    (d : SearchDirection) (k : KeyEvent) (r : List Char) :
    ((searchCallback old e d k r).1).quit_times = e.quit_times := by
  unfold searchCallback
  rcases hk : k.code <;> dsimp only <;> split <;> rfl

theorem searchCallback_size (old : Position) (e : Editor)
    (d : SearchDirection) (k : KeyEvent) (r : List Char) :
    ((searchCallback old e d k r).1).size = e.size := by
  unfold searchCallback
  rcases hk : k.code <;> dsimp only <;> split <;> rfl

/-- C6: an Escape-terminated search session restores the cursor position
saved when the session began, and the viewport offset is re-derived by
`scroll` from that restored cursor, for every pre-search state and every
key sequence. -/
theorem search_esc_restores (e : Editor) (ks : List KeyEvent) (e2 : Editor)
    (d2 : SearchDirection) (r : List Char)
    (h : promptLoop (searchCallback e.cursor_position) searchPromptStr e
          .Forward [] ks = some (e2, d2, r, true)) :
    Option.map Editor.cursor_position (Editor.search e ks)
      = some e.cursor_position ∧
    Option.map Editor.offset (Editor.search e ks)
      = some (scrollOffset e.size e.cursor_position e2.offset) := by
  have hr : r = [] :=
    promptLoop_esc_empty (searchCallback e.cursor_position) searchPromptStr
      ks e .Forward [] e2 d2 r h
  subst hr
  have hsz : e2.size = e.size :=
    promptLoop_pres Editor.size (searchCallback e.cursor_position)
      searchPromptStr (fun e s k r => searchCallback_size _ e s k r)
      (fun _ _ => rfl) ks e .Forward [] (e2, d2, [], true) h
  have hp : Editor.prompt (searchCallback e.cursor_position) searchPromptStr e
      .Forward ks = some ({ e2 with status_message := "" }, d2, none) := by
    unfold Editor.prompt
    rw [h]
    simp
  unfold Editor.search
  dsimp only
  rw [hp]
  dsimp only
  constructor
  · rfl
  · simp only [Option.map_some', Option.some.injEq]
    rw [scroll_offset_eq]
    dsimp only
    rw [hsz]

/-- Witness for C6: an immediate Escape in a session over `["ab", "c"]`
starting at cursor `(1, 0)` with offset `(1, 0)`. -/
theorem search_esc_restores_witness :
    Option.map Editor.cursor_position
        (Editor.search
          { sampleEditor with cursor_position := ⟨1, 0⟩, offset := ⟨1, 0⟩ }
          [⟨false, .Esc⟩])
      = some (⟨1, 0⟩ : Position) ∧
    Option.map Editor.offset
        (Editor.search
          { sampleEditor with cursor_position := ⟨1, 0⟩, offset := ⟨1, 0⟩ }
          [⟨false, .Esc⟩])
      = some (scrollOffset ⟨80, 24⟩ ⟨1, 0⟩ ⟨1, 0⟩) := by
  have h := search_esc_restores
    { sampleEditor with cursor_position := ⟨1, 0⟩, offset := ⟨1, 0⟩ }
    [⟨false, .Esc⟩]
    { sampleEditor with cursor_position := ⟨1, 0⟩, offset := ⟨1, 0⟩,
                        status_message := searchPromptStr }
    .Forward [] (by decide)
  simpa using h

theorem save_quit_times (e : Editor) (ks : List KeyEvent) (ok : Bool)
    (p : Editor × Bool) (h : Editor.save e ks ok = some p) :
    p.1.quit_times = e.quit_times := by
  unfold Editor.save at h
  rcases hn : e.document.file_name with _ | nm
  · rw [hn] at h
    dsimp only at h
    rcases hp : Editor.prompt saveCallback "Save as: " e () ks with _ | ⟨e2, u, q⟩
    · rw [hp] at h; exact absurd h (by simp)
    · rw [hp] at h
      have h2 : e2.quit_times = e.quit_times :=
        prompt_pres Editor.quit_times saveCallback "Save as: "
          (fun _ _ _ _ => rfl) (fun _ _ => rfl) e () ks (e2, u, q) hp
      rcases q with _ | nm2
      · dsimp only at h
        injection h with h
        rw [← h]
        exact h2
      · dsimp only at h
        unfold doWrite at h
        split at h <;> (injection h with h; rw [← h]; exact h2)
  · rw [hn] at h
    dsimp only at h
    unfold doWrite at h
    split at h <;> (injection h with h; rw [← h])

theorem search_quit_times (e : Editor) (ks : List KeyEvent) (e3 : Editor)
    (h : Editor.search e ks = some e3) : e3.quit_times = e.quit_times := by
  unfold Editor.search at h
  dsimp only at h
  rcases hp : Editor.prompt (searchCallback e.cursor_position) searchPromptStr
      e .Forward ks with _ | ⟨e2, d2, q⟩
  · rw [hp] at h; exact absurd h (by simp)
  · rw [hp] at h
    have h2 : e2.quit_times = e.quit_times :=
      prompt_pres Editor.quit_times (searchCallback e.cursor_position)
        searchPromptStr (fun e s k r => searchCallback_quit_times _ e s k r)
        (fun _ _ => rfl) e .Forward ks (e2, d2, q) hp
    rcases q with _ | q
    · dsimp only at h
      injection h with h
      rw [← h]
      exact h2
    · dsimp only at h
      injection h with h
      rw [← h]
      exact h2

/-- C5: after processing any command other than Quit, the quit counter is
back at its full value `QUIT_TIMES` (given the invariant that it never
exceeds `QUIT_TIMES`), and whenever the counter was below full — i.e. a quit
warning was pending — the status message is cleared. -/
theorem non_quit_resets_counter (e : Editor) (k : KeyEvent)
    (ks : List KeyEvent) (ok : Bool) (e' : Editor)
    (hk : ¬(k.control = true ∧ k.code = KeyCode.Char 'q'))
    (hq : e.quit_times ≤ QUIT_TIMES)
    (h : e.process_keypress k ks ok = some e') :
    e'.quit_times = QUIT_TIMES ∧
    (e.quit_times < QUIT_TIMES → e'.status_message = "") := by
  unfold Editor.process_keypress at h
  rw [if_neg hk] at h
  by_cases hs : k.control = true ∧ k.code = KeyCode.Char 's'
  · rw [if_pos hs] at h
    rcases hv : Editor.save e ks ok with _ | p
    · rw [hv] at h; exact absurd h (by simp)
    · rw [hv] at h
      simp only [Option.map_some'] at h
      injection h with h
      have hqt := save_quit_times e ks ok p hv
      rw [← h]
      exact ⟨finishKeypress_quit_times _ (by rw [hqt]; exact hq),
             fun hlt => finishKeypress_status _ (by rw [hqt]; exact hlt)⟩
  · rw [if_neg hs] at h
    by_cases hf : k.control = true ∧ k.code = KeyCode.Char 'f'
    · rw [if_pos hf] at h
      rcases hv : Editor.search e ks with _ | e3
      · rw [hv] at h; exact absurd h (by simp)
      · rw [hv] at h
        simp only [Option.map_some'] at h
        injection h with h
        have hqt := search_quit_times e ks e3 hv
        rw [← h]
        exact ⟨finishKeypress_quit_times _ (by rw [hqt]; exact hq),
               fun hlt => finishKeypress_status _ (by rw [hqt]; exact hlt)⟩
    · rw [if_neg hf] at h
      injection h with h
      have hqt := editArm_quit_times e k.code
      rw [← h]
      exact ⟨finishKeypress_quit_times _ (by rw [hqt]; exact hq),
             fun hlt => finishKeypress_status _ (by rw [hqt]; exact hlt)⟩

/-- Witness for C5: an ignored key on an editor with a pending warning
(counter 1) restores the counter to 3 and clears the message. -/
theorem non_quit_resets_counter_witness :
    sampleEditor.quit_times = QUIT_TIMES ∧
    (({ sampleEditor with quit_times := 1, status_message := "W" } :
        Editor).quit_times < QUIT_TIMES →
      sampleEditor.status_message = "") :=
  non_quit_resets_counter
    { sampleEditor with quit_times := 1, status_message := "W" }
    ⟨false, .Other⟩ [] true sampleEditor (by decide) (by decide) (by decide)

/-- C7: when opening the file named on the command line fails, the editor
starts with a new empty `Document` whose `file_name` is `None`, and the
failure is surfaced only as the "ERR: Could not open file: ..." status
message of an ordinarily constructed (non-crashed, not quitting) editor. -/
theorem default_open_failure (name : String)
    (openRes : String → Option Document) (sz : Size)
    (h : openRes name = none) :
    (Editor.default (some name) openRes sz).document = Document.default ∧
    (Editor.default (some name) openRes sz).document.file_name = none ∧
    (Editor.default (some name) openRes sz).document.rows = [] ∧
    (Editor.default (some name) openRes sz).status_message
      = "ERR: Could not open file: " ++ name ∧
    (Editor.default (some name) openRes sz).should_quit = false := by
  simp [Editor.default, h, Document.default]

/-- Witness for C7: a concrete failing open. -/
theorem default_open_failure_witness :
    (Editor.default (some "missing.txt") alwaysFailOpen ⟨80, 24⟩).document
      = Document.default ∧
    (Editor.default (some "missing.txt") alwaysFailOpen
        ⟨80, 24⟩).document.file_name = none ∧
    (Editor.default (some "missing.txt") alwaysFailOpen
        ⟨80, 24⟩).document.rows = [] ∧
    (Editor.default (some "missing.txt") alwaysFailOpen
        ⟨80, 24⟩).status_message = "ERR: Could not open file: " ++ "missing.txt" ∧
    (Editor.default (some "missing.txt") alwaysFailOpen ⟨80, 24⟩).should_quit
      = false :=
  default_open_failure "missing.txt" alwaysFailOpen ⟨80, 24⟩ rfl

end TTE
